import Mathlib

/-!
Verification of the `cws-manager-cli` Chrome Web Store client
(`src/services/chrome-webstore-client.ts` and the `upload`/`deploy` commands).

The TypeScript code is shallowly embedded: the mutable fields of
`ChromeWebStoreClient` become an explicit `ClientState` record threaded through
each operation, `Date.now()` becomes an explicit `now : Int` parameter
(milliseconds), and each HTTP round trip is resolved by an oracle argument
(`Except String α`) standing for "the parsed JSON body the transport would
deliver, or the error it would throw".  Every operation additionally returns
the list of network requests it issued, in order, so that "no network call is
made" claims are statements about that list.
-/

namespace CWS

/-- Decidable equality for transport outcomes (needed to evaluate concrete
runs). -/
instance {ε α : Type} [DecidableEq ε] [DecidableEq α] :
    DecidableEq (Except ε α) := fun a b =>
  match a, b with
  | .error e1, .error e2 =>
      if h : e1 = e2 then isTrue (by rw [h])
      else isFalse (fun hc => by cases hc; exact h rfl)
  | .ok v1, .ok v2 =>
      if h : v1 = v2 then isTrue (by rw [h])
      else isFalse (fun hc => by cases hc; exact h rfl)
  | .error _, .ok _ => isFalse (fun h => Except.noConfusion h)
  | .ok _, .error _ => isFalse (fun h => Except.noConfusion h)

/-- `UploadState` enum from `src/types/index.ts`. -/
inductive UploadState where
  | UPLOAD_STATE_UNSPECIFIED
  | SUCCEEDED
  | IN_PROGRESS
  | FAILED
  | NOT_FOUND
deriving DecidableEq, Repr

/-- `ChromeWebStoreConfig` from `src/types/index.ts`. -/
structure ChromeWebStoreConfig where
  clientId : String
  clientSecret : String
  refreshToken : String
  publisherId : String
deriving DecidableEq, Repr

/-- The mutable fields of `ChromeWebStoreClient` (lines 25–28 of
`chrome-webstore-client.ts`): the immutable `config`, the constant `baseUrl`,
and the token cache `accessToken? : string` / `tokenExpiry? : number`
(absent = `undefined`, modelled as `none`). -/
structure ClientState where
  config : ChromeWebStoreConfig
  baseUrl : String
  accessToken : Option String
  tokenExpiry : Option Int
deriving DecidableEq, Repr

/-- `new ChromeWebStoreClient(config)`: both token-cache fields start
`undefined`, `baseUrl` starts at the constant `BASE_URL`. -/
def mkClient (config : ChromeWebStoreConfig) : ClientState :=
  { config := config
    baseUrl := "https://chromewebstore.googleapis.com"
    accessToken := none
    tokenExpiry := none }

/-- Parsed body of a successful token-endpoint response (`TokenResponse`
interface; only the fields the code reads). `expires_in` is in seconds. -/
structure TokenResponse where
  access_token : String
  expires_in : Int
deriving DecidableEq, Repr

/-- One network request, as issued by `httpRequest`.  `tokenRefresh` is the
POST to the OAuth token endpoint; `domain` is an authenticated call to the
store API (`method` and URL path recorded). -/
inductive Req where
  | tokenRefresh
  | domain (method : String) (path : String)
  | uploadPost (path : String) (body : List UInt8)
deriving DecidableEq, Repr

/-- JavaScript truthiness of the optional string field `this.accessToken`:
`undefined` and `""` are falsy. -/
def strTruthy : Option String → Bool
  | none => false
  | some s => s ≠ ""

/-- JavaScript truthiness of the optional number field `this.tokenExpiry`:
`undefined` and `0` are falsy. -/
def numTruthy : Option Int → Bool
  | none => false
  | some n => n ≠ 0

/-- The cached-token guard on line 36 of `chrome-webstore-client.ts`:
`this.accessToken && this.tokenExpiry && Date.now() < this.tokenExpiry`. -/
def cachedValid (st : ClientState) (now : Int) : Bool :=
  strTruthy st.accessToken && numTruthy st.tokenExpiry &&
    decide (now < st.tokenExpiry.getD 0)

/-- `getAccessToken` (lines 34–61).  If the cached-token guard passes, the
cached token is returned with no state change and no request.  Otherwise one
POST to the token endpoint is issued; on success the code stores
`accessToken := access_token` and `tokenExpiry := Date.now() + expires_in * 1000`
and returns the new token; on transport failure the exception propagates
before either assignment, leaving the state unchanged. -/
def getAccessToken (st : ClientState) (now : Int)
    (tokenResp : Except String TokenResponse) :
    Except String String × ClientState × List Req :=
  if cachedValid st now then
    (.ok (st.accessToken.getD ""), st, [])
  else
    match tokenResp with
    | .error e => (.error e, st, [Req.tokenRefresh])
    | .ok r =>
        (.ok r.access_token,
         { st with accessToken := some r.access_token
                   tokenExpiry := some (now + r.expires_in * 1000) },
         [Req.tokenRefresh])

/-! ### Multipart encoding (`uploadPackage`, lines 117–133)

The source builds the part header as a JavaScript string and UTF-8 encodes it
with `Buffer.from`; the file buffer is spliced in raw with `Buffer.concat`.
We work at the byte level: `strBytes` is UTF-8 encoding, and the body is the
concatenation of header bytes, file bytes and closing-delimiter bytes. -/

/-- UTF-8 bytes of a string (`Buffer.from(s)` with the default encoding);
the byte list underlying `String.toUTF8`. -/
def strBytes (s : String) : List UInt8 := s.data.flatMap String.utf8EncodeChar

/-- The bytes `\r\n`. -/
def crlf : List UInt8 := [13, 10]

/-- The bytes `--`. -/
def dashdash : List UInt8 := [45, 45]

/-- The byte of `"`. -/
def quoteByte : UInt8 := 34

/-- Header bytes up to and including the opening quote of the filename:
`--<boundary>\r\nContent-Disposition: form-data; name="file"; filename="`. -/
def partHeaderPre (boundary : List UInt8) : List UInt8 :=
  dashdash ++ boundary ++ crlf ++
    strBytes "Content-Disposition: form-data; name=\"file\"; filename=\""

/-- Header bytes after the filename: the closing quote, then
`\r\nContent-Type: application/octet-stream\r\n\r\n`. -/
def partHeaderPost : List UInt8 :=
  strBytes "\"\r\nContent-Type: application/octet-stream\r\n\r\n"

/-- The closing delimiter appended after the file bytes:
`\r\n--<boundary>--\r\n` (line 132). -/
def closingDelim (boundary : List UInt8) : List UInt8 :=
  crlf ++ dashdash ++ boundary ++ dashdash ++ crlf

/-- The full multipart body built on lines 123–133: header string bytes,
then the raw file buffer, then the closing delimiter. -/
def multipartBody (boundary filename fileBytes : List UInt8) : List UInt8 :=
  partHeaderPre boundary ++ filename ++ partHeaderPost ++ fileBytes ++
    closingDelim boundary

/-- Split a byte list at the first occurrence of `pat`, returning the bytes
before the occurrence and the bytes after it.  `none` if `pat` never occurs.
This is the scanning step any conformant multipart parser performs to find the
end of a part's content (and, with `pat = ["]`, a quoted token). -/
def splitOnSeq (pat : List UInt8) : List UInt8 → Option (List UInt8 × List UInt8)
  | [] => if pat.isPrefixOf ([] : List UInt8) then some ([], []) else none
  | x :: xs =>
      if pat.isPrefixOf (x :: xs) then some ([], (x :: xs).drop pat.length)
      else (splitOnSeq pat xs).map (fun p => (x :: p.1, p.2))

/-- The delimiter sequence a multipart parser scans for to terminate a part's
content: `\r\n--<boundary>`. -/
def delimSeq (boundary : List UInt8) : List UInt8 := crlf ++ dashdash ++ boundary

/-- A conformant single-part `multipart/form-data` parser, specialised to the
header shape this encoder emits: it consumes the opening boundary line and the
`Content-Disposition` header up to the opening filename quote, reads the
filename up to the next `"`, consumes the `Content-Type` header and theblank
line, takes the content as everything before the first occurrence of
`\r\n--<boundary>` (per RFC 2046 the content runs to the first boundary
delimiter line), and requires the closing `--\r\n`.  Returns
`(filename bytes, content bytes)`. -/
def parseMultipart (boundary body : List UInt8) : Option (List UInt8 × List UInt8) :=
  let pre := partHeaderPre boundary
  if pre.isPrefixOf body then
    match splitOnSeq [quoteByte] (body.drop pre.length) with
    | none => none
    | some (fn, rest) =>
        let mid := strBytes "\r\nContent-Type: application/octet-stream\r\n\r\n"
        if mid.isPrefixOf rest then
          match splitOnSeq (delimSeq boundary) (rest.drop mid.length) with
          | none => none
          | some (content, fin) =>
              if fin = dashdash ++ crlf then some (fn, content) else none
        else none
  else none

/-! ### Path helpers (`path.basename`, `path.extname`) -/

/-- `path.basename(p)`: the last path component, ignoring trailing slashes. -/
def basenameStr (p : String) : String :=
  (((p.data.reverse.dropWhile (· = '/')).takeWhile (· ≠ '/')).reverse).asString

/-- `String.prototype.toLowerCase()` as used on extensions: lowercase every
character (ASCII letters; extensions compared against `.zip`/`.crx` are
ASCII). -/
def toLowerStr (s : String) : String := (s.data.map Char.toLower).asString

/-- `path.extname(p)`: the suffix of the last path component from its final
dot, except that a dot which is the first character of the component yields
`""` (hidden files), a component with no dot yields `""`, and the component
`".."` yields `""`. -/
def extnameStr (p : String) : String :=
  let revComp := (p.data.reverse.dropWhile (· = '/')).takeWhile (· ≠ '/')
  let beforeDot := revComp.takeWhile (· ≠ '.')
  if beforeDot.length = revComp.length then ""
  else if beforeDot.length + 1 = revComp.length then ""
  else if revComp = ['.', '.'] then ""
  else ('.' :: beforeDot.reverse).asString

/-! ### Response types from `src/types/index.ts` -/

/-- `ItemState` enum. -/
inductive ItemState where
  | ITEM_STATE_UNSPECIFIED
  | PENDING_REVIEW
  | STAGED
  | PUBLISHED
  | PUBLISHED_TO_TESTERS
  | REJECTED
  | CANCELLED
deriving DecidableEq, Repr

/-- `PublishType` enum. -/
inductive PublishType where
  | PUBLISH_TYPE_UNSPECIFIED
  | DEFAULT_PUBLISH
  | STAGED_PUBLISH
deriving DecidableEq, Repr

/-- `DistributionChannel`. -/
structure DistributionChannel where
  crxVersion : Option String
  deployPercentage : Option Int
deriving DecidableEq, Repr

/-- `DeployInfo`. -/
structure DeployInfo where
  deployPercentage : Int
deriving DecidableEq, Repr

/-- `ItemRevisionStatus`. -/
structure ItemRevisionStatus where
  state : Option ItemState
  distributionChannels : Option (List DistributionChannel)
deriving DecidableEq, Repr

/-- `UploadItemPackageResponse`. -/
structure UploadItemPackageResponse where
  crxVersion : Option String
  name : Option String
  itemId : Option String
  uploadState : Option UploadState
deriving DecidableEq, Repr

/-- `PublishItemRequest`. -/
structure PublishItemRequest where
  skipReview : Option Bool
  publishType : Option PublishType
  deployInfos : Option (List DeployInfo)
deriving DecidableEq, Repr

/-- `PublishItemResponse`. -/
structure PublishItemResponse where
  state : Option ItemState
  name : Option String
  itemId : Option String
deriving DecidableEq, Repr

/-- `SetPublishedDeployPercentageRequest`. -/
structure SetPublishedDeployPercentageRequest where
  deployPercentage : Int
deriving DecidableEq, Repr

/-- `FetchItemStatusResponse`. -/
structure FetchItemStatusResponse where
  submittedItemRevisionStatus : Option ItemRevisionStatus
  takenDown : Option Bool
  publishedItemRevisionStatus : Option ItemRevisionStatus
  publicKey : Option String
  name : Option String
  lastAsyncUploadState : Option UploadState
  itemId : Option String
  warned : Option Bool
deriving DecidableEq, Repr

/-- A `FetchItemStatusResponse` whose only populated field is
`lastAsyncUploadState` (convenient for concrete poller inputs). -/
def statusWith (s : Option UploadState) : FetchItemStatusResponse :=
  ⟨none, none, none, none, none, s, none, none⟩

/-! ### Domain operations (`makeRequest` and the five public operations)

Each operation takes the pre-call state, the current time, the oracle for the
token refresh (used only when the cached-token guard fails) and the oracle for
its own HTTP exchange, and returns (result, post-call state, requests issued
in order). -/

/-- `makeRequest` (lines 87–107): obtain a token via `getAccessToken`, then
issue one request to `baseUrl ++ apiPath`.  If `getAccessToken` throws, the
request is never issued. -/
def makeRequest {α : Type} (st : ClientState) (now : Int)
    (tokenResp : Except String TokenResponse)
    (method : String) (apiPath : String)
    (resp : Except String α) :
    Except String α × ClientState × List Req :=
  match getAccessToken st now tokenResp with
  | (.error e, st1, reqs) => (.error e, st1, reqs)
  | (.ok _, st1, reqs) =>
      (resp, st1, reqs ++ [Req.domain method (st1.baseUrl ++ apiPath)])

/-- `uploadPackage` (lines 109–150).  `fs` models the filesystem
(`existsSync` = membership, `readFileSync` = lookup); `boundary` stands for
the random boundary token generated on lines 118–119.  If the file is
missing, the function throws before any token fetch or request (lines
113–115); otherwise it reads the file, builds the multipart body, fetches a
token, and issues the upload POST. -/
def uploadPackage (st : ClientState) (now : Int)
    (fs : String → Option (List UInt8)) (boundary : List UInt8)
    (itemId filePath : String)
    (tokenResp : Except String TokenResponse)
    (uploadResp : Except String UploadItemPackageResponse) :
    Except String UploadItemPackageResponse × ClientState × List Req :=
  match fs filePath with
  | none => (.error ("File not found: " ++ filePath), st, [])
  | some fileBuffer =>
      let filename := basenameStr filePath
      let bodyBuffer := multipartBody boundary (strBytes filename) fileBuffer
      match getAccessToken st now tokenResp with
      | (.error e, st1, reqs) => (.error e, st1, reqs)
      | (.ok _, st1, reqs) =>
          let requestUrl := st1.baseUrl ++ "/upload/v2/publishers/" ++
            st1.config.publisherId ++ "/items/" ++ itemId ++ ":upload"
          (uploadResp, st1, reqs ++ [Req.uploadPost requestUrl bodyBuffer])

/-- `publishItem` (lines 152–158). -/
def publishItem (st : ClientState) (now : Int)
    (tokenResp : Except String TokenResponse)
    (itemId : String) (request : PublishItemRequest)
    (resp : Except String PublishItemResponse) :
    Except String PublishItemResponse × ClientState × List Req :=
  makeRequest st now tokenResp "POST"
    ("/v2/publishers/" ++ st.config.publisherId ++ "/items/" ++ itemId ++
      ":publish") resp

/-- `fetchItemStatus` (lines 160–163). -/
def fetchItemStatus (st : ClientState) (now : Int)
    (tokenResp : Except String TokenResponse)
    (itemId : String)
    (resp : Except String FetchItemStatusResponse) :
    Except String FetchItemStatusResponse × ClientState × List Req :=
  makeRequest st now tokenResp "GET"
    ("/v2/publishers/" ++ st.config.publisherId ++ "/items/" ++ itemId ++
      ":fetchStatus") resp

/-- `cancelSubmission` (lines 165–168). -/
def cancelSubmission (st : ClientState) (now : Int)
    (tokenResp : Except String TokenResponse)
    (itemId : String) (resp : Except String Unit) :
    Except String Unit × ClientState × List Req :=
  makeRequest st now tokenResp "POST"
    ("/v2/publishers/" ++ st.config.publisherId ++ "/items/" ++ itemId ++
      ":cancelSubmission") resp

/-- `setPublishedDeployPercentage` (lines 170–176). -/
def setPublishedDeployPercentage (st : ClientState) (now : Int)
    (tokenResp : Except String TokenResponse)
    (itemId : String) (request : SetPublishedDeployPercentageRequest)
    (resp : Except String Unit) :
    Except String Unit × ClientState × List Req :=
  makeRequest st now tokenResp "POST"
    ("/v2/publishers/" ++ st.config.publisherId ++ "/items/" ++ itemId ++
      ":setPublishedDeployPercentage") resp

/-! ### The upload-completion poller (`waitForUploadCompletion`, lines 178–208)

Time model: `startTime = start`, each `fetchItemStatus` round trip is
instantaneous, and each sleep advances time by the fixed
`POLL_INTERVAL_MS = 2000`.  `elapsed` is `Date.now() - startTime` at the top
of the loop; the oracle functions give the `n`-th iteration's token-refresh
and fetch-status outcomes. -/

/-- The poll interval constant `POLL_INTERVAL_MS`. -/
def POLL_INTERVAL_MS : ℕ := 2000

/-- How a poller run ended: a state returned from inside the `switch`, the
timeout error thrown on line 207, or an exception propagating out of
`fetchItemStatus`. -/
inductive PollResult where
  | finished (s : UploadState)
  | timedOut
  | threw (e : String)
deriving DecidableEq, Repr

/-- Observable outcome of a poller run: the result, the final client state,
the number of `fetchItemStatus` calls performed, the elapsed time (ms) at the
moment of return, and all network requests issued. -/
structure PollRun where
  result : PollResult
  state : ClientState
  calls : ℕ
  elapsed : ℕ
  reqs : List Req
deriving DecidableEq, Repr

/-- The `while` loop of `waitForUploadCompletion`: while
`elapsed < maxWaitTime`, fetch the status (iteration `n`); return
`SUCCEEDED`/`FAILED` immediately; return any other present non-`IN_PROGRESS`
state immediately; on `IN_PROGRESS` or an absent state, sleep 2000 ms and
repeat.  When the guard fails the timeout error is thrown. -/
def waitLoop (tokenO : ℕ → Except String TokenResponse)
    (fetchO : ℕ → Except String FetchItemStatusResponse)
    (itemId : String) (maxWaitTime : Int) (start : Int)
    (st : ClientState) (n : ℕ) (elapsed : ℕ) (acc : List Req) : PollRun :=
  if h : (elapsed : Int) < maxWaitTime then
    match fetchItemStatus st (start + elapsed) (tokenO n) itemId (fetchO n) with
    | (.error e, st1, reqs) => ⟨.threw e, st1, n + 1, elapsed, acc ++ reqs⟩
    | (.ok status, st1, reqs) =>
        match status.lastAsyncUploadState with
        | some .SUCCEEDED => ⟨.finished .SUCCEEDED, st1, n + 1, elapsed, acc ++ reqs⟩
        | some .FAILED => ⟨.finished .FAILED, st1, n + 1, elapsed, acc ++ reqs⟩
        | some .IN_PROGRESS =>
            waitLoop tokenO fetchO itemId maxWaitTime start st1 (n + 1)
              (elapsed + POLL_INTERVAL_MS) (acc ++ reqs)
        | some s => ⟨.finished s, st1, n + 1, elapsed, acc ++ reqs⟩
        | none =>
            waitLoop tokenO fetchO itemId maxWaitTime start st1 (n + 1)
              (elapsed + POLL_INTERVAL_MS) (acc ++ reqs)
  else ⟨.timedOut, st, n, elapsed, acc⟩
termination_by (maxWaitTime - elapsed).toNat
decreasing_by all_goals (simp [POLL_INTERVAL_MS]; omega)

/-- `waitForUploadCompletion(itemId, maxWaitTime)`: record the start time and
run the loop from `elapsed = 0` with no calls made. -/
def waitForUploadCompletion (tokenO : ℕ → Except String TokenResponse)
    (fetchO : ℕ → Except String FetchItemStatusResponse)
    (itemId : String) (maxWaitTime : Int) (start : Int)
    (st : ClientState) : PollRun :=
  waitLoop tokenO fetchO itemId maxWaitTime start st 0 0 []

/-! ### Command layer (`src/commands/upload.ts`, `src/commands/deploy.ts`)

Each command model returns its outcome together with the full ordered list of
network requests issued during the run, so that "raised before any network
call" is the statement that the request list is empty at the throw. -/

/-- How a command run ended.  `validationError` is any of the input-validation
`throw new Error(...)` statements in the command bodies; `cmdError` is any
other propagated exception (transport/auth failures, the poller's timeout);
`exitFail` is the explicit `process.exit(1)` on a non-`SUCCEEDED` final
poll state. -/
inductive CmdOutcome where
  | ok
  | validationError (msg : String)
  | cmdError (msg : String)
  | exitFail
deriving DecidableEq, Repr

/-- Options of the `upload` command after `commander`/`parseInt` processing:
`deployPercentage` and `maxWaitTime` are the `parseInt` results (`none`
models `NaN`; `maxWaitTime` is in seconds). -/
structure UploadCmdOpts where
  dry : Bool
  autoPublish : Bool
  skipReview : Bool
  stagedPublishType : Bool
  deployPercentage : Option Int
  maxWaitTime : Option Int
deriving DecidableEq, Repr

/-- The auto-publish tail of the `upload` command action: if `--auto-publish`
was given, validate the deploy percentage (0–100), then publish with
`deployInfos` included only when the percentage is below 100. -/
def uploadCmdAutoPublish (st : ClientState) (now : Int) (itemId : String)
    (opts : UploadCmdOpts)
    (tokenResp : Except String TokenResponse)
    (publishResp : Except String PublishItemResponse)
    (reqs : List Req) : CmdOutcome × List Req :=
  if opts.autoPublish then
    let publishType := if opts.stagedPublishType then
      PublishType.STAGED_PUBLISH else PublishType.DEFAULT_PUBLISH
    match opts.deployPercentage with
    | none => (.validationError "Deploy percentage must be a number between 0 and 100", reqs)
    | some dp =>
        if dp < 0 ∨ dp > 100 then
          (.validationError "Deploy percentage must be a number between 0 and 100", reqs)
        else
          let request : PublishItemRequest :=
            { skipReview := some opts.skipReview
              publishType := some publishType
              deployInfos := if dp < 100 then some [⟨dp⟩] else none }
          match publishItem st now tokenResp itemId request publishResp with
          | (.error e, _, reqs2) => (.cmdError e, reqs ++ reqs2)
          | (.ok _, _, reqs2) => (.ok, reqs ++ reqs2)
  else (.ok, reqs)

/-- The `upload` command action (`src/commands/upload.ts`): validate that the
file exists and has a `.zip`/`.crx` extension (before any configuration
loading, client construction or network traffic), honour `--dry`, upload the
package, and — only when the response's `uploadState` is `IN_PROGRESS` —
parse and validate `--max-wait-time` (seconds → ms, minimum 5000 ms) and run
the completion poller; finally auto-publish if requested.  The separate
oracles (`tokenResp`, `tokenOPoll`, `tokenRespPub`) resolve the token-refresh
attempts of the three phases. -/
def uploadCmd (fs : String → Option (List UInt8)) (cfg : ChromeWebStoreConfig)
    (itemId file : String) (opts : UploadCmdOpts) (boundary : List UInt8)
    (now : Int)
    (tokenResp : Except String TokenResponse)
    (uploadResp : Except String UploadItemPackageResponse)
    (tokenOPoll : ℕ → Except String TokenResponse)
    (fetchO : ℕ → Except String FetchItemStatusResponse)
    (tokenRespPub : Except String TokenResponse)
    (publishResp : Except String PublishItemResponse) : CmdOutcome × List Req :=
  if (fs file).isNone then
    (.validationError ("File not found: " ++ file), [])
  else
    let fileExt := toLowerStr (extnameStr file)
    if ¬ (fileExt = ".zip" ∨ fileExt = ".crx") then
      (.validationError ("Unsupported file type: " ++ fileExt ++
        ". Only .zip and .crx files are supported."), [])
    else if opts.dry then (.ok, [])
    else
      match uploadPackage (mkClient cfg) now fs boundary itemId file
          tokenResp uploadResp with
      | (.error e, _, reqs) => (.cmdError e, reqs)
      | (.ok uresp, st1, reqs) =>
          if uresp.uploadState = some UploadState.IN_PROGRESS then
            match opts.maxWaitTime.map (· * 1000) with
            | none => (.validationError "Max wait time must be at least 5 seconds", reqs)
            | some maxWaitTime =>
                if maxWaitTime < 5000 then
                  (.validationError "Max wait time must be at least 5 seconds", reqs)
                else
                  let run := waitForUploadCompletion tokenOPoll fetchO itemId
                    maxWaitTime now st1
                  match run.result with
                  | .threw e => (.cmdError e, reqs ++ run.reqs)
                  | .timedOut =>
                      (.cmdError "Upload timeout: Maximum wait time exceeded",
                       reqs ++ run.reqs)
                  | .finished s =>
                      if s = UploadState.SUCCEEDED then
                        uploadCmdAutoPublish run.state now itemId opts
                          tokenRespPub publishResp (reqs ++ run.reqs)
                      else (.exitFail, reqs ++ run.reqs)
          else
            uploadCmdAutoPublish st1 now itemId opts tokenRespPub publishResp reqs

/-- The `deploy` command action (`src/commands/deploy.ts`): parse the
percentage argument (`none` models `NaN`), validate `0 ≤ p ≤ 100` before any
configuration loading or network traffic, honour `--dry`, then call
`setPublishedDeployPercentage` on a freshly constructed client. -/
def deployCmd (cfg : ChromeWebStoreConfig) (itemId : String)
    (percentage : Option Int) (dry : Bool) (now : Int)
    (tokenResp : Except String TokenResponse)
    (resp : Except String Unit) : CmdOutcome × List Req :=
  if percentage = none ∨ percentage.getD 0 < 0 ∨ percentage.getD 0 > 100 then
    (.validationError "Deploy percentage must be a number between 0 and 100", [])
  else if dry then (.ok, [])
  else
    match setPublishedDeployPercentage (mkClient cfg) now tokenResp itemId
        ⟨percentage.getD 0⟩ resp with
    | (.error e, _, reqs) => (.cmdError e, reqs)
    | (.ok _, _, reqs) => (.ok, reqs)

/-! ## Helper lemmas -/

/-- A concrete configuration used by witness theorems. -/
def cfg0 : ChromeWebStoreConfig := ⟨"ci", "cs", "rt", "pub"⟩

lemma cachedValid_true {st : ClientState} {now : Int} {tok : String} {e : Int}
    (hA : st.accessToken = some tok) (htok : tok ≠ "")
    (hE : st.tokenExpiry = some e) (h0 : 0 ≤ now) (hlt : now < e) :
    cachedValid st now = true := by
  have he0 : e ≠ 0 := by omega
  simp [cachedValid, strTruthy, numTruthy, hA, hE, htok, he0, hlt]

lemma getAccessToken_cached {st : ClientState} {now : Int}
    (h : cachedValid st now = true) (tr : Except String TokenResponse) :
    getAccessToken st now tr = (.ok (st.accessToken.getD ""), st, []) := by
  simp [getAccessToken, h]

lemma getAccessToken_refresh_ok {st : ClientState} {now : Int}
    (h : cachedValid st now = false) (r : TokenResponse) :
    getAccessToken st now (.ok r) =
      (.ok r.access_token,
       { st with accessToken := some r.access_token
                 tokenExpiry := some (now + r.expires_in * 1000) },
       [Req.tokenRefresh]) := by
  simp [getAccessToken, h]

lemma getAccessToken_refresh_err {st : ClientState} {now : Int}
    (h : cachedValid st now = false) (e : String) :
    getAccessToken st now (.error e) = (.error e, st, [Req.tokenRefresh]) := by
  simp [getAccessToken, h]

/-- When the token endpoint would answer successfully, `getAccessToken`
always returns a token (cached or refreshed). -/
lemma getAccessToken_ok_shape (st : ClientState) (now : Int) (r : TokenResponse) :
    ∃ tok st1 rs, getAccessToken st now (.ok r) = (.ok tok, st1, rs) := by
  cases h : cachedValid st now with
  | true => exact ⟨_, _, _, getAccessToken_cached h _⟩
  | false => exact ⟨_, _, _, getAccessToken_refresh_ok h r⟩

/-- Frame property of `getAccessToken`: `config` and `baseUrl` are untouched,
and the token pair is either unchanged or replaced wholesale by the refresh
response at the current time. -/
lemma getAccessToken_frame (st : ClientState) (now : Int)
    (tr : Except String TokenResponse) :
    (getAccessToken st now tr).2.1.config = st.config ∧
    (getAccessToken st now tr).2.1.baseUrl = st.baseUrl ∧
    (((getAccessToken st now tr).2.1.accessToken = st.accessToken ∧
      (getAccessToken st now tr).2.1.tokenExpiry = st.tokenExpiry) ∨
     ∃ r, tr = .ok r ∧
       (getAccessToken st now tr).2.1.accessToken = some r.access_token ∧
       (getAccessToken st now tr).2.1.tokenExpiry =
         some (now + r.expires_in * 1000)) := by
  cases h : cachedValid st now with
  | true => rw [getAccessToken_cached h]; exact ⟨rfl, rfl, .inl ⟨rfl, rfl⟩⟩
  | false =>
      cases tr with
      | error e => rw [getAccessToken_refresh_err h]; exact ⟨rfl, rfl, .inl ⟨rfl, rfl⟩⟩
      | ok r => rw [getAccessToken_refresh_ok h]; exact ⟨rfl, rfl, .inr ⟨r, rfl, rfl, rfl⟩⟩

/-! ## C1 — token caching in `getAccessToken` -/

/-- C1: (i) with a (truthy) cached token and `now` before its expiry — the
code's safety margin is zero — the cached token is returned unchanged with no
network request; (ii) starting from a fresh client, two calls within the
first response's validity window issue exactly one token-endpoint request in
total and return the same token both times; (iii) once the expiry has passed,
the next call issues exactly one refresh request and caches the new expiry as
`now + expires_in * 1000` (milliseconds), together with the new token. -/
theorem C1_token_cache :
    (∀ (st : ClientState) (tr : Except String TokenResponse) (now : Int)
       (tok : String) (e : Int),
       st.accessToken = some tok → tok ≠ "" → st.tokenExpiry = some e →
       0 ≤ now → now < e →
       getAccessToken st now tr = (.ok tok, st, [])) ∧
    (∀ (cfg : ChromeWebStoreConfig) (t0 t1 : Int) (r : TokenResponse)
       (tr2 : Except String TokenResponse),
       r.access_token ≠ "" → 0 ≤ t0 → t0 ≤ t1 → t1 < t0 + r.expires_in * 1000 →
       (getAccessToken (mkClient cfg) t0 (.ok r)).1 = .ok r.access_token ∧
       (getAccessToken (mkClient cfg) t0 (.ok r)).2.2 = [Req.tokenRefresh] ∧
       getAccessToken (getAccessToken (mkClient cfg) t0 (.ok r)).2.1 t1 tr2 =
         (.ok r.access_token, (getAccessToken (mkClient cfg) t0 (.ok r)).2.1, [])) ∧
    (∀ (st : ClientState) (now e : Int) (r : TokenResponse),
       st.tokenExpiry = some e → e ≤ now →
       getAccessToken st now (.ok r) =
         (.ok r.access_token,
          { st with accessToken := some r.access_token
                    tokenExpiry := some (now + r.expires_in * 1000) },
          [Req.tokenRefresh])) := by
  refine ⟨?_, ?_, ?_⟩
  · intro st tr now tok e hA htok hE h0 hlt
    rw [getAccessToken_cached (cachedValid_true hA htok hE h0 hlt)]
    simp [hA]
  · intro cfg t0 t1 r tr2 hne h0 h01 h1
    have hfresh : cachedValid (mkClient cfg) t0 = false := by
      simp [cachedValid, mkClient, strTruthy]
    rw [getAccessToken_refresh_ok hfresh]
    refine ⟨rfl, rfl, ?_⟩
    have hv : cachedValid
        { mkClient cfg with accessToken := some r.access_token
                            tokenExpiry := some (t0 + r.expires_in * 1000) } t1 = true :=
      cachedValid_true rfl hne rfl (by omega) (by omega)
    rw [getAccessToken_cached hv]
    simp
  · intro st now e r hE hle
    have hv : cachedValid st now = false := by
      simp [cachedValid, hE]
      intro _ _
      omega
    rw [getAccessToken_refresh_ok hv]

/-- Witness for C1 at concrete inputs: a cache hit at time 5 with expiry 10,
the two-call scenario from the spec (`T1`, `expires_in = 3600`), and a
refresh at `now = 4000000` after expiry `3600000`. -/
theorem C1_token_cache_witness :
    (getAccessToken ⟨cfg0, "b", some "T1", some 10⟩ 5 (.error "down") =
      (.ok "T1", ⟨cfg0, "b", some "T1", some 10⟩, [])) ∧
    (getAccessToken (getAccessToken (mkClient cfg0) 0 (.ok ⟨"T1", 3600⟩)).2.1
        1000000 (.error "down") =
      (.ok "T1", (getAccessToken (mkClient cfg0) 0 (.ok ⟨"T1", 3600⟩)).2.1, [])) ∧
    (getAccessToken ⟨cfg0, "b", some "T1", some 3600000⟩ 4000000 (.ok ⟨"T2", 60⟩) =
      (.ok "T2", ⟨cfg0, "b", some "T2", some (4000000 + 60 * 1000)⟩,
       [Req.tokenRefresh])) := by
  refine ⟨?_, ?_, ?_⟩
  · exact C1_token_cache.1 _ _ _ _ 10 rfl (by decide) rfl (by decide) (by decide)
  · exact (C1_token_cache.2.1 cfg0 0 1000000 ⟨"T1", 3600⟩ (.error "down")
      (by decide) (by decide) (by decide) (by decide)).2.2
  · exact C1_token_cache.2.2 _ 4000000 3600000 _ rfl (by decide)

/-! ## Poller lemmas -/

lemma makeRequest_ok_token {α : Type} (st : ClientState) (now : Int)
    (r : TokenResponse) (m p : String) (resp : Except String α) :
    makeRequest st now (.ok r) m p resp =
      (resp, (getAccessToken st now (.ok r)).2.1,
       (getAccessToken st now (.ok r)).2.2 ++
         [Req.domain m ((getAccessToken st now (.ok r)).2.1.baseUrl ++ p)]) := by
  obtain ⟨tok, st1, rs, h⟩ := getAccessToken_ok_shape st now r
  simp [makeRequest, h]

lemma fetchItemStatus_ok (st : ClientState) (now : Int) (r : TokenResponse)
    (itemId : String) (resp : FetchItemStatusResponse) :
    fetchItemStatus st now (.ok r) itemId (.ok resp) =
      (.ok resp, (getAccessToken st now (.ok r)).2.1,
       (getAccessToken st now (.ok r)).2.2 ++
         [Req.domain "GET" ((getAccessToken st now (.ok r)).2.1.baseUrl ++
           ("/v2/publishers/" ++ st.config.publisherId ++ "/items/" ++ itemId ++
             ":fetchStatus"))]) :=
  makeRequest_ok_token st now r "GET" _ (.ok resp)

/-- The timeout exit of the loop: if the guard `elapsed < maxWaitTime` fails,
the timeout error is thrown at once, with no further fetch. -/
lemma waitLoop_timeout_exit (tokenO : ℕ → Except String TokenResponse)
    (fetchO : ℕ → Except String FetchItemStatusResponse)
    (itemId : String) (maxWaitTime start : Int) (st : ClientState)
    (n elapsed : ℕ) (acc : List Req)
    (h : ¬ ((elapsed : Int) < maxWaitTime)) :
    waitLoop tokenO fetchO itemId maxWaitTime start st n elapsed acc =
      ⟨.timedOut, st, n, elapsed, acc⟩ := by
  rw [waitLoop]
  simp [h]

/-- One `IN_PROGRESS` iteration: fetch once, then sleep 2000 ms and loop with
the next oracle index. -/
lemma waitLoop_step_inprogress (tokenO : ℕ → Except String TokenResponse)
    (fetchO : ℕ → Except String FetchItemStatusResponse)
    (itemId : String) (maxWaitTime start : Int) (st : ClientState)
    (n elapsed : ℕ) (acc : List Req) (r : TokenResponse)
    (resp : FetchItemStatusResponse)
    (hlt : (elapsed : Int) < maxWaitTime)
    (htok : tokenO n = .ok r) (hfetch : fetchO n = .ok resp)
    (hip : resp.lastAsyncUploadState = some UploadState.IN_PROGRESS) :
    ∃ st1 acc1,
      waitLoop tokenO fetchO itemId maxWaitTime start st n elapsed acc =
        waitLoop tokenO fetchO itemId maxWaitTime start st1 (n + 1)
          (elapsed + POLL_INTERVAL_MS) acc1 := by
  have h : waitLoop tokenO fetchO itemId maxWaitTime start st n elapsed acc =
      waitLoop tokenO fetchO itemId maxWaitTime start
        (getAccessToken st (start + elapsed) (.ok r)).2.1 (n + 1)
        (elapsed + POLL_INTERVAL_MS)
        (acc ++ ((getAccessToken st (start + elapsed) (.ok r)).2.2 ++
          [Req.domain "GET"
            ((getAccessToken st (start + elapsed) (.ok r)).2.1.baseUrl ++
              ("/v2/publishers/" ++ st.config.publisherId ++ "/items/" ++
                itemId ++ ":fetchStatus"))])) := by
    rw [waitLoop, dif_pos hlt, htok, hfetch, fetchItemStatus_ok]
    simp [hip]
  exact ⟨_, _, h⟩

/-! ## C2 — poller step semantics -/

/-- C2: in any iteration whose fetch succeeds within the deadline, exactly one
`fetchStatus` call is made, and: a `SUCCEEDED` or `FAILED` state is returned
immediately (no further sleep or fetch, elapsed time unchanged); any other
present state different from `IN_PROGRESS` (e.g. `NOT_FOUND`) is returned
immediately as-is; on `IN_PROGRESS` or an absent state the loop sleeps the
fixed 2000 ms interval and repeats with the next iteration. -/
theorem C2_poller_step :
    ∀ (tokenO : ℕ → Except String TokenResponse)
      (fetchO : ℕ → Except String FetchItemStatusResponse)
      (itemId : String) (maxWaitTime start : Int) (st : ClientState)
      (n elapsed : ℕ) (acc : List Req)
      (status : FetchItemStatusResponse) (st1 : ClientState) (rs : List Req),
      (elapsed : Int) < maxWaitTime →
      fetchItemStatus st (start + elapsed) (tokenO n) itemId (fetchO n) =
        (.ok status, st1, rs) →
      ((status.lastAsyncUploadState = some UploadState.SUCCEEDED →
          waitLoop tokenO fetchO itemId maxWaitTime start st n elapsed acc =
            ⟨.finished UploadState.SUCCEEDED, st1, n + 1, elapsed, acc ++ rs⟩) ∧
       (status.lastAsyncUploadState = some UploadState.FAILED →
          waitLoop tokenO fetchO itemId maxWaitTime start st n elapsed acc =
            ⟨.finished UploadState.FAILED, st1, n + 1, elapsed, acc ++ rs⟩) ∧
       (∀ s, status.lastAsyncUploadState = some s →
          s ≠ UploadState.SUCCEEDED → s ≠ UploadState.FAILED →
          s ≠ UploadState.IN_PROGRESS →
          waitLoop tokenO fetchO itemId maxWaitTime start st n elapsed acc =
            ⟨.finished s, st1, n + 1, elapsed, acc ++ rs⟩) ∧
       ((status.lastAsyncUploadState = some UploadState.IN_PROGRESS ∨
         status.lastAsyncUploadState = none) →
          waitLoop tokenO fetchO itemId maxWaitTime start st n elapsed acc =
            waitLoop tokenO fetchO itemId maxWaitTime start st1 (n + 1)
              (elapsed + POLL_INTERVAL_MS) (acc ++ rs))) := by
  intro tokenO fetchO itemId maxWaitTime start st n elapsed acc status st1 rs
    hlt hfetch
  have hunf : waitLoop tokenO fetchO itemId maxWaitTime start st n elapsed acc =
      match status.lastAsyncUploadState with
      | some UploadState.SUCCEEDED =>
          ⟨.finished UploadState.SUCCEEDED, st1, n + 1, elapsed, acc ++ rs⟩
      | some UploadState.FAILED =>
          ⟨.finished UploadState.FAILED, st1, n + 1, elapsed, acc ++ rs⟩
      | some UploadState.IN_PROGRESS =>
          waitLoop tokenO fetchO itemId maxWaitTime start st1 (n + 1)
            (elapsed + POLL_INTERVAL_MS) (acc ++ rs)
      | some s => ⟨.finished s, st1, n + 1, elapsed, acc ++ rs⟩
      | none =>
          waitLoop tokenO fetchO itemId maxWaitTime start st1 (n + 1)
            (elapsed + POLL_INTERVAL_MS) (acc ++ rs) := by
    rw [waitLoop, dif_pos hlt, hfetch]
  refine ⟨?_, ?_, ?_, ?_⟩
  · intro hs; rw [hunf, hs]
  · intro hs; rw [hunf, hs]
  · intro s hs h1 h2 h3
    rw [hunf, hs]
    cases s <;> simp_all
  · rintro (hs | hs) <;> rw [hunf, hs]

/-- Witness for C2: a first-iteration fetch answering `NOT_FOUND` is returned
as-is after exactly one call, with no sleep. -/
theorem C2_poller_step_witness :
    waitLoop (fun _ => .ok ⟨"T1", 3600⟩)
      (fun _ => .ok (statusWith (some UploadState.NOT_FOUND)))
      "item1" 5000 0 (mkClient cfg0) 0 0 [] =
      ⟨.finished UploadState.NOT_FOUND,
       ⟨cfg0, "https://chromewebstore.googleapis.com", some "T1", some 3600000⟩,
       1, 0,
       [Req.tokenRefresh,
        Req.domain "GET"
          "https://chromewebstore.googleapis.com/v2/publishers/pub/items/item1:fetchStatus"]⟩ := by
  have h := C2_poller_step (fun _ => .ok ⟨"T1", 3600⟩)
    (fun _ => .ok (statusWith (some UploadState.NOT_FOUND)))
    "item1" 5000 0 (mkClient cfg0) 0 0 []
    (statusWith (some UploadState.NOT_FOUND))
    ⟨cfg0, "https://chromewebstore.googleapis.com", some "T1", some 3600000⟩
    [Req.tokenRefresh,
     Req.domain "GET"
       "https://chromewebstore.googleapis.com/v2/publishers/pub/items/item1:fetchStatus"]
    (by decide) rfl
  exact h.2.2.1 UploadState.NOT_FOUND rfl (by decide) (by decide) (by decide)

/-! ## C3 — poller timeout timing -/

/-- When every iteration's token refresh would succeed and every fetch
reports `IN_PROGRESS`, any run of the loop (from any starting `elapsed`)
ends in the timeout error, thrown at an elapsed time no earlier than
`maxWaitTime` (the loop only continues while strictly below it) and — unless
the very first guard check already fails — less than one polling interval
past `maxWaitTime`. -/
lemma waitLoop_inprogress_timedOut
    (tokenO : ℕ → Except String TokenResponse)
    (fetchO : ℕ → Except String FetchItemStatusResponse)
    (itemId : String) (maxWaitTime start : Int)
    (htok : ∀ n, ∃ r, tokenO n = .ok r)
    (hf : ∀ n, ∃ resp, fetchO n = .ok resp ∧
      resp.lastAsyncUploadState = some UploadState.IN_PROGRESS) :
    ∀ (st : ClientState) (n elapsed : ℕ) (acc : List Req),
      (waitLoop tokenO fetchO itemId maxWaitTime start st n elapsed
        acc).result = .timedOut ∧
      maxWaitTime ≤ ((waitLoop tokenO fetchO itemId maxWaitTime start st n
        elapsed acc).elapsed : Int) ∧
      ((waitLoop tokenO fetchO itemId maxWaitTime start st n elapsed
          acc).elapsed = elapsed ∨
       ((waitLoop tokenO fetchO itemId maxWaitTime start st n elapsed
          acc).elapsed : Int) < maxWaitTime + (POLL_INTERVAL_MS : Int)) := by
  intro st n elapsed acc
  induction st, n, elapsed, acc using waitLoop.induct tokenO fetchO itemId
    maxWaitTime start with
  | case1 st n elapsed acc hlt e st1 reqs hfetch =>
      obtain ⟨r, hr⟩ := htok n
      obtain ⟨resp, hresp, hip⟩ := hf n
      rw [hr, hresp, fetchItemStatus_ok] at hfetch
      simp_all
  | case2 st n elapsed acc hlt status st1 reqs hfetch hstate =>
      obtain ⟨r, hr⟩ := htok n
      obtain ⟨resp, hresp, hip⟩ := hf n
      rw [hr, hresp, fetchItemStatus_ok] at hfetch
      simp_all
  | case3 st n elapsed acc hlt status st1 reqs hfetch hstate =>
      obtain ⟨r, hr⟩ := htok n
      obtain ⟨resp, hresp, hip⟩ := hf n
      rw [hr, hresp, fetchItemStatus_ok] at hfetch
      simp_all
  | case4 st n elapsed acc hlt status st1 reqs hfetch hstate ih =>
      have hw : waitLoop tokenO fetchO itemId maxWaitTime start st n elapsed
          acc = waitLoop tokenO fetchO itemId maxWaitTime start st1 (n + 1)
            (elapsed + POLL_INTERVAL_MS) (acc ++ reqs) := by
        rw [waitLoop, dif_pos hlt, hfetch]; simp [hstate]
      rw [hw]
      obtain ⟨ih1, ih2, ih3⟩ := ih
      refine ⟨ih1, ih2, Or.inr ?_⟩
      rcases ih3 with h | h
      · rw [h]; push_cast; omega
      · exact h
  | case5 st n elapsed acc hlt status st1 reqs hfetch s hs1 hs2 hs3 hstate =>
      obtain ⟨r, hr⟩ := htok n
      obtain ⟨resp, hresp, hip⟩ := hf n
      rw [hr, hresp, fetchItemStatus_ok] at hfetch
      simp_all
  | case6 st n elapsed acc hlt status st1 reqs hfetch hstate ih =>
      obtain ⟨r, hr⟩ := htok n
      obtain ⟨resp, hresp, hip⟩ := hf n
      rw [hr, hresp, fetchItemStatus_ok] at hfetch
      simp_all
  | case7 st n elapsed acc hlt =>
      rw [waitLoop_timeout_exit tokenO fetchO itemId maxWaitTime start st n
        elapsed acc hlt]
      exact ⟨rfl, by push_cast at hlt ⊢; omega, Or.inl rfl⟩

/-- C3: when every fetch succeeds and always reports `IN_PROGRESS`, then
(i) for *every* `maxWaitTime` the poller raises the timeout error, at an
elapsed time that is at least `maxWaitTime` — the loop only continues while
the elapsed time is strictly below `maxWaitTime` — and (unless the deadline
was non-positive) within one polling interval past it; (ii) for
`maxWaitTime = 5000` ms the error is raised after 3 fetches at elapsed
6000 ms, between 5000 ms and 7000 ms; (iii) for `maxWaitTime = 4000` ms the
loop stops after 2 fetches exactly when the elapsed time reaches the bound
(a strict guard: elapsed 4000 does not start another iteration). -/
theorem C3_poller_timeout :
    ∀ (tokenO : ℕ → Except String TokenResponse)
      (fetchO : ℕ → Except String FetchItemStatusResponse)
      (itemId : String) (start : Int) (st : ClientState),
      (∀ n, ∃ r, tokenO n = .ok r) →
      (∀ n, ∃ resp, fetchO n = .ok resp ∧
        resp.lastAsyncUploadState = some UploadState.IN_PROGRESS) →
      (∀ maxWaitTime : Int,
        (waitForUploadCompletion tokenO fetchO itemId maxWaitTime start
          st).result = .timedOut ∧
        maxWaitTime ≤ ((waitForUploadCompletion tokenO fetchO itemId
          maxWaitTime start st).elapsed : Int) ∧
        ((waitForUploadCompletion tokenO fetchO itemId maxWaitTime start
            st).elapsed = 0 ∨
         ((waitForUploadCompletion tokenO fetchO itemId maxWaitTime start
            st).elapsed : Int) < maxWaitTime + (POLL_INTERVAL_MS : Int))) ∧
      ((waitForUploadCompletion tokenO fetchO itemId 5000 start st).result =
          .timedOut ∧
       (waitForUploadCompletion tokenO fetchO itemId 5000 start st).calls = 3 ∧
       (waitForUploadCompletion tokenO fetchO itemId 5000 start st).elapsed =
          6000 ∧
       5000 ≤ (waitForUploadCompletion tokenO fetchO itemId 5000 start
          st).elapsed ∧
       (waitForUploadCompletion tokenO fetchO itemId 5000 start st).elapsed ≤
          7000) ∧
      ((waitForUploadCompletion tokenO fetchO itemId 4000 start st).result =
          .timedOut ∧
       (waitForUploadCompletion tokenO fetchO itemId 4000 start st).calls = 2 ∧
       (waitForUploadCompletion tokenO fetchO itemId 4000 start st).elapsed =
          4000) := by
  intro tokenO fetchO itemId start st htok hfetch
  refine ⟨?_, ?_, ?_⟩
  · intro maxWaitTime
    rw [waitForUploadCompletion]
    exact waitLoop_inprogress_timedOut tokenO fetchO itemId maxWaitTime start
      htok hfetch st 0 0 []
  · obtain ⟨r0, hr0⟩ := htok 0
    obtain ⟨s0, hs0, hip0⟩ := hfetch 0
    obtain ⟨r1, hr1⟩ := htok 1
    obtain ⟨s1, hs1, hip1⟩ := hfetch 1
    obtain ⟨r2, hr2⟩ := htok 2
    obtain ⟨s2, hs2, hip2⟩ := hfetch 2
    obtain ⟨stA, accA, h0⟩ := waitLoop_step_inprogress tokenO fetchO itemId
      5000 start st 0 0 [] r0 s0 (by decide) hr0 hs0 hip0
    obtain ⟨stB, accB, h1⟩ := waitLoop_step_inprogress tokenO fetchO itemId
      5000 start stA 1 (0 + POLL_INTERVAL_MS) accA r1 s1 (by decide) hr1 hs1
      hip1
    obtain ⟨stC, accC, h2⟩ := waitLoop_step_inprogress tokenO fetchO itemId
      5000 start stB 2 (0 + POLL_INTERVAL_MS + POLL_INTERVAL_MS) accB r2 s2
      (by decide) hr2 hs2 hip2
    have hfin := waitLoop_timeout_exit tokenO fetchO itemId 5000 start stC 3
      (0 + POLL_INTERVAL_MS + POLL_INTERVAL_MS + POLL_INTERVAL_MS) accC
      (by decide)
    have heq : waitForUploadCompletion tokenO fetchO itemId 5000 start st =
        ⟨.timedOut, stC, 3, 0 + POLL_INTERVAL_MS + POLL_INTERVAL_MS +
          POLL_INTERVAL_MS, accC⟩ := by
      rw [waitForUploadCompletion, h0, h1, h2, hfin]
    rw [heq]
    refine ⟨rfl, rfl, by simp [POLL_INTERVAL_MS], by simp [POLL_INTERVAL_MS],
      by simp [POLL_INTERVAL_MS]⟩
  · obtain ⟨r0, hr0⟩ := htok 0
    obtain ⟨s0, hs0, hip0⟩ := hfetch 0
    obtain ⟨r1, hr1⟩ := htok 1
    obtain ⟨s1, hs1, hip1⟩ := hfetch 1
    obtain ⟨stA, accA, h0⟩ := waitLoop_step_inprogress tokenO fetchO itemId
      4000 start st 0 0 [] r0 s0 (by decide) hr0 hs0 hip0
    obtain ⟨stB, accB, h1⟩ := waitLoop_step_inprogress tokenO fetchO itemId
      4000 start stA 1 (0 + POLL_INTERVAL_MS) accA r1 s1 (by decide) hr1 hs1
      hip1
    have hfin := waitLoop_timeout_exit tokenO fetchO itemId 4000 start stB 2
      (0 + POLL_INTERVAL_MS + POLL_INTERVAL_MS) accB (by decide)
    have heq : waitForUploadCompletion tokenO fetchO itemId 4000 start st =
        ⟨.timedOut, stB, 2, 0 + POLL_INTERVAL_MS + POLL_INTERVAL_MS, accB⟩ := by
      rw [waitForUploadCompletion, h0, h1, hfin]
    rw [heq]
    exact ⟨rfl, rfl, by simp [POLL_INTERVAL_MS]⟩

/-- Witness for C3: constant oracles (`T1`/3600 s token, `IN_PROGRESS`
status), exercising the general part at the source's default deadline
300000 ms and the concrete 5000 ms and 4000 ms instances. -/
theorem C3_poller_timeout_witness :
    (waitForUploadCompletion (fun _ => .ok ⟨"T1", 3600⟩)
      (fun _ => .ok (statusWith (some UploadState.IN_PROGRESS)))
      "item1" 300000 0 (mkClient cfg0)).result = .timedOut ∧
    (waitForUploadCompletion (fun _ => .ok ⟨"T1", 3600⟩)
      (fun _ => .ok (statusWith (some UploadState.IN_PROGRESS)))
      "item1" 5000 0 (mkClient cfg0)).result = .timedOut ∧
    (waitForUploadCompletion (fun _ => .ok ⟨"T1", 3600⟩)
      (fun _ => .ok (statusWith (some UploadState.IN_PROGRESS)))
      "item1" 5000 0 (mkClient cfg0)).calls = 3 ∧
    (waitForUploadCompletion (fun _ => .ok ⟨"T1", 3600⟩)
      (fun _ => .ok (statusWith (some UploadState.IN_PROGRESS)))
      "item1" 5000 0 (mkClient cfg0)).elapsed = 6000 ∧
    (waitForUploadCompletion (fun _ => .ok ⟨"T1", 3600⟩)
      (fun _ => .ok (statusWith (some UploadState.IN_PROGRESS)))
      "item1" 4000 0 (mkClient cfg0)).calls = 2 := by
  have h := C3_poller_timeout (fun _ => .ok ⟨"T1", 3600⟩)
    (fun _ => .ok (statusWith (some UploadState.IN_PROGRESS)))
    "item1" 0 (mkClient cfg0)
    (fun _ => ⟨⟨"T1", 3600⟩, rfl⟩)
    (fun _ => ⟨statusWith (some UploadState.IN_PROGRESS), rfl, rfl⟩)
  exact ⟨(h.1 300000).1, h.2.1.1, h.2.1.2.1, h.2.1.2.2.1, h.2.2.2.1⟩

/-! ## C10 — non-positive deadline -/

/-- C10: with `maxWaitTime ≤ 0` the guard `Date.now() - startTime <
maxWaitTime` fails before the first iteration, so the timeout error is thrown
immediately: zero `fetchStatus` calls, zero network requests, state
unchanged, elapsed 0. -/
theorem C10_nonpositive_deadline :
    ∀ (tokenO : ℕ → Except String TokenResponse)
      (fetchO : ℕ → Except String FetchItemStatusResponse)
      (itemId : String) (maxWaitTime start : Int) (st : ClientState),
      maxWaitTime ≤ 0 →
      waitForUploadCompletion tokenO fetchO itemId maxWaitTime start st =
        ⟨.timedOut, st, 0, 0, []⟩ := by
  intro tokenO fetchO itemId maxWaitTime start st h
  rw [waitForUploadCompletion]
  exact waitLoop_timeout_exit _ _ _ _ _ _ _ _ _ (by push_cast; omega)

/-- Witness for C10 at `maxWaitTime = 0` with concrete oracles. -/
theorem C10_nonpositive_deadline_witness :
    waitForUploadCompletion (fun _ => .ok ⟨"T1", 3600⟩)
      (fun _ => .ok (statusWith (some UploadState.IN_PROGRESS)))
      "item1" 0 0 (mkClient cfg0) = ⟨.timedOut, mkClient cfg0, 0, 0, []⟩ :=
  C10_nonpositive_deadline _ _ "item1" 0 0 (mkClient cfg0) (by decide)

/-! ## Multipart lemmas -/

lemma isPrefixOf_append_self (l t : List UInt8) : l.isPrefixOf (l ++ t) = true := by
  induction l with
  | nil => simp [List.isPrefixOf]
  | cons a as ih => simpa [List.isPrefixOf] using ih

/-- If `pat` occurs nowhere strictly inside `as` (including occurrences
overhanging into the tail), the first occurrence of `pat` in
`as ++ pat ++ bs` is the explicit middle one, so the scan splits there. -/
lemma splitOnSeq_append (pat : List UInt8) (hne : pat ≠ []) :
    ∀ (as bs : List UInt8),
      (∀ i, i < as.length →
        pat.isPrefixOf ((as ++ (pat ++ bs)).drop i) = false) →
      splitOnSeq pat (as ++ (pat ++ bs)) = some (as, bs) := by
  intro as
  induction as with
  | nil =>
      intro bs _
      cases pat with
      | nil => exact absurd rfl hne
      | cons p pt =>
          show splitOnSeq (p :: pt) ((p :: pt) ++ bs) = some ([], bs)
          have hpre : (p :: pt).isPrefixOf ((p :: pt) ++ bs) = true :=
            isPrefixOf_append_self _ _
          simp only [List.cons_append, splitOnSeq, List.append_eq] at hpre ⊢
          rw [if_pos hpre]
          simp [List.drop_left]
  | cons a as' ih =>
      intro bs h
      have h0 : pat.isPrefixOf (a :: (as' ++ (pat ++ bs))) = false := by
        have := h 0 (by simp)
        simpa using this
      have hrec := ih bs (fun i hi => by
        have := h (i + 1) (by simpa using Nat.succ_lt_succ hi)
        simpa using this)
      show splitOnSeq pat (a :: (as' ++ (pat ++ bs))) = some (a :: as', bs)
      rw [splitOnSeq, if_neg (by simp [h0]), hrec]
      rfl

/-- The byte list of the `Content-Type` header block that follows the
filename's closing quote. -/
def midBytes : List UInt8 :=
  strBytes "\r\nContent-Type: application/octet-stream\r\n\r\n"

lemma partHeaderPost_eq : partHeaderPost = quoteByte :: midBytes := by decide

lemma closingDelim_eq (boundary : List UInt8) :
    closingDelim boundary = delimSeq boundary ++ (dashdash ++ crlf) := by
  simp [closingDelim, delimSeq, List.append_assoc]

lemma delimSeq_ne_nil (boundary : List UInt8) : delimSeq boundary ≠ [] := by
  simp [delimSeq, crlf]

/-- Splitting at a byte that does not occur in the prefix. -/
lemma splitOnSeq_single (q : UInt8) (as bs : List UInt8) (h : q ∉ as) :
    splitOnSeq [q] (as ++ ([q] ++ bs)) = some (as, bs) := by
  apply splitOnSeq_append [q] (by simp) as bs
  intro i hi
  have hd : (as ++ ([q] ++ bs)).drop i = as.drop i ++ ([q] ++ bs) := by
    rw [List.drop_append_eq_append_drop]
    have h0 : i - as.length = 0 := by omega
    simp [h0]
  rw [hd, List.drop_eq_getElem_cons hi]
  have hne : q ≠ as[i] := fun he => h (he ▸ List.getElem_mem hi)
  simp [List.isPrefixOf, hne]

/-! ## C4 — multipart encoding round-trip -/

/-- A concrete boundary for counterexample/witness inputs. -/
def boundaryB : List UInt8 := strBytes "B"

/-- The filename `a.zip` as bytes. -/
def fnAzip : List UInt8 := strBytes "a.zip"

/-- A file buffer that contains the delimiter sequence `\r\n--B` itself. -/
def badBytes : List UInt8 := crlf ++ dashdash ++ strBytes "B"

/-- Counterexample to C4 as stated: for the file buffer `\r\n--B` (which
contains the boundary delimiter sequence) the encoder's output does not parse
back to the original bytes — the parser's content scan stops at the embedded
delimiter and the parse fails, so the round-trip does not hold for *every*
byte buffer. -/
theorem C4_multipart_counterexample :
    parseMultipart boundaryB (multipartBody boundaryB fnAzip badBytes) = none ∧
    parseMultipart boundaryB (multipartBody boundaryB fnAzip badBytes) ≠
      some (fnAzip, badBytes) := by
  constructor
  · decide
  · decide

/-- C4 (amended): the multipart body is exactly the part header (naming the
single part `file` with the given filename), the file bytes unchanged, and
the closing boundary delimiter; and parsing it with a conformant multipart
parser returns the identical file bytes and filename, provided the filename
bytes contain no quote byte and the delimiter sequence `\r\n--<boundary>`
does not occur starting inside the file bytes. -/
theorem C4_multipart_roundtrip :
    ∀ (boundary filename fileBytes : List UInt8),
      (multipartBody boundary filename fileBytes =
        (partHeaderPre boundary ++ filename ++ partHeaderPost) ++ fileBytes ++
          closingDelim boundary) ∧
      (quoteByte ∉ filename →
       (∀ i, i < fileBytes.length →
         (delimSeq boundary).isPrefixOf
           ((fileBytes ++ closingDelim boundary).drop i) = false) →
       parseMultipart boundary (multipartBody boundary filename fileBytes) =
         some (filename, fileBytes)) := by
  intro b f fb
  constructor
  · simp [multipartBody, List.append_assoc]
  · intro hq hb
    have hbody : multipartBody b f fb =
        partHeaderPre b ++ (f ++ ([quoteByte] ++ (midBytes ++
          (fb ++ (delimSeq b ++ (dashdash ++ crlf)))))) := by
      simp [multipartBody, partHeaderPost_eq, closingDelim_eq,
        List.append_assoc]
    have hq1 : splitOnSeq [quoteByte]
        (f ++ ([quoteByte] ++ (midBytes ++ (fb ++ (delimSeq b ++
          (dashdash ++ crlf)))))) =
        some (f, midBytes ++ (fb ++ (delimSeq b ++ (dashdash ++ crlf)))) :=
      splitOnSeq_single _ _ _ hq
    have hb2 : ∀ i, i < fb.length →
        (delimSeq b).isPrefixOf
          ((fb ++ (delimSeq b ++ (dashdash ++ crlf))).drop i) = false := by
      intro i hi
      have := hb i hi
      rwa [closingDelim_eq] at this
    have hsplit2 : splitOnSeq (delimSeq b)
        (fb ++ (delimSeq b ++ (dashdash ++ crlf))) =
        some (fb, dashdash ++ crlf) :=
      splitOnSeq_append _ (delimSeq_ne_nil b) fb _ hb2
    rw [hbody, parseMultipart]
    rw [if_pos (isPrefixOf_append_self _ _), List.drop_left, hq1]
    have hmid : strBytes "\r\nContent-Type: application/octet-stream\r\n\r\n" =
        midBytes := rfl
    simp only [hmid]
    rw [if_pos (isPrefixOf_append_self _ _)]
    have hdrop : (midBytes ++ (fb ++ (delimSeq b ++ (dashdash ++ crlf)))).drop
        midBytes.length = fb ++ (delimSeq b ++ (dashdash ++ crlf)) :=
      List.drop_left _ _
    rw [hdrop, hsplit2]
    simp

/-- Witness for C4 (amended) at the spec's example: boundary
`----WebKitFormBoundaryabc`, filename `a.zip`, the 5-byte buffer
`[0xDE, 0xAD, 0xBE, 0xEF, 0x00]`. -/
theorem C4_multipart_roundtrip_witness :
    parseMultipart (strBytes "----WebKitFormBoundaryabc")
      (multipartBody (strBytes "----WebKitFormBoundaryabc") fnAzip
        [0xDE, 0xAD, 0xBE, 0xEF, 0x00]) =
      some (fnAzip, [0xDE, 0xAD, 0xBE, 0xEF, 0x00]) :=
  (C4_multipart_roundtrip (strBytes "----WebKitFormBoundaryabc") fnAzip
    [0xDE, 0xAD, 0xBE, 0xEF, 0x00]).2 (by decide) (by decide)

/-! ## Command-layer helper lemmas -/

lemma uploadCmd_file_missing
    (fs : String → Option (List UInt8)) (cfg : ChromeWebStoreConfig)
    (itemId file : String) (opts : UploadCmdOpts) (boundary : List UInt8)
    (now : Int) (tr : Except String TokenResponse)
    (ur : Except String UploadItemPackageResponse)
    (tO : ℕ → Except String TokenResponse)
    (fO : ℕ → Except String FetchItemStatusResponse)
    (trp : Except String TokenResponse)
    (pr : Except String PublishItemResponse)
    (h : fs file = none) :
    uploadCmd fs cfg itemId file opts boundary now tr ur tO fO trp pr =
      (.validationError ("File not found: " ++ file), []) := by
  simp [uploadCmd, h]

lemma uploadCmd_bad_ext
    (fs : String → Option (List UInt8)) (cfg : ChromeWebStoreConfig)
    (itemId file : String) (opts : UploadCmdOpts) (boundary : List UInt8)
    (now : Int) (tr : Except String TokenResponse)
    (ur : Except String UploadItemPackageResponse)
    (tO : ℕ → Except String TokenResponse)
    (fO : ℕ → Except String FetchItemStatusResponse)
    (trp : Except String TokenResponse)
    (pr : Except String PublishItemResponse)
    (hsome : (fs file).isNone = false)
    (h1 : toLowerStr (extnameStr file) ≠ ".zip")
    (h2 : toLowerStr (extnameStr file) ≠ ".crx") :
    uploadCmd fs cfg itemId file opts boundary now tr ur tO fO trp pr =
      (.validationError ("Unsupported file type: " ++ toLowerStr (extnameStr file) ++
        ". Only .zip and .crx files are supported."), []) := by
  rw [uploadCmd]
  rw [if_neg (by simp [hsome])]
  rw [if_pos (by simp [h1, h2])]

lemma deployCmd_out_of_range (cfg : ChromeWebStoreConfig) (itemId : String)
    (percentage : Option Int) (dry : Bool) (now : Int)
    (tr : Except String TokenResponse) (resp : Except String Unit)
    (h : percentage = none ∨ ∃ p, percentage = some p ∧ (p < 0 ∨ p > 100)) :
    deployCmd cfg itemId percentage dry now tr resp =
      (.validationError "Deploy percentage must be a number between 0 and 100",
       []) := by
  rw [deployCmd]
  rw [if_pos ?_]
  rcases h with h | ⟨p, hp, hout⟩
  · exact Or.inl h
  · subst hp
    rcases hout with h1 | h1
    · exact Or.inr (Or.inl (by simpa using h1))
    · exact Or.inr (Or.inr (by simpa using h1))

/-! ## C5 — upload file validation before any network call -/

/-- A filesystem holding one empty file `a.zip`. -/
def fsEmptyZip : String → Option (List UInt8) :=
  fun p => if p = "a.zip" then some [] else none

/-- A filesystem holding one 1-byte file `a.zip`. -/
def fsOneZip : String → Option (List UInt8) :=
  fun p => if p = "a.zip" then some [1] else none

/-- Default-ish upload command options: no dry run, no auto publish,
deploy percentage 100, max wait 300 s. -/
def opts0 : UploadCmdOpts := ⟨false, false, false, false, some 100, some 300⟩

/-- Counterexample to C5 as stated: `a.zip` exists but is *empty* (so the
path does not reference an existing non-empty file), yet the upload command
performs no validation of non-emptiness: it succeeds and issues two network
requests (token refresh and upload POST) instead of failing with a
`ValidationError` and zero network calls. -/
theorem C5_counterexample :
    fsEmptyZip "a.zip" = some [] ∧
    (uploadCmd fsEmptyZip cfg0 "item1" "a.zip" opts0 (strBytes "b") 0
      (.ok ⟨"T1", 3600⟩) (.ok ⟨none, none, none, some UploadState.SUCCEEDED⟩)
      (fun _ => .error "unused") (fun _ => .error "unused")
      (.error "unused") (.error "unused")).1 = CmdOutcome.ok ∧
    (uploadCmd fsEmptyZip cfg0 "item1" "a.zip" opts0 (strBytes "b") 0
      (.ok ⟨"T1", 3600⟩) (.ok ⟨none, none, none, some UploadState.SUCCEEDED⟩)
      (fun _ => .error "unused") (fun _ => .error "unused")
      (.error "unused") (.error "unused")).2.length = 2 := by
  refine ⟨rfl, by decide, by decide⟩

/-- C5 (amended, dropping "non-empty"): whenever the path references no
existing file, or its (lowercased) extension is neither `.zip` nor `.crx`,
the upload command fails with a `ValidationError` and performs zero network
calls — the request list is empty, so in particular no token refresh
happens. -/
theorem C5_upload_validation :
    ∀ (fs : String → Option (List UInt8)) (cfg : ChromeWebStoreConfig)
      (itemId file : String) (opts : UploadCmdOpts) (boundary : List UInt8)
      (now : Int) (tr : Except String TokenResponse)
      (ur : Except String UploadItemPackageResponse)
      (tO : ℕ → Except String TokenResponse)
      (fO : ℕ → Except String FetchItemStatusResponse)
      (trp : Except String TokenResponse)
      (pr : Except String PublishItemResponse),
      (fs file = none ∨
       (toLowerStr (extnameStr file) ≠ ".zip" ∧ toLowerStr (extnameStr file) ≠ ".crx")) →
      ∃ msg, uploadCmd fs cfg itemId file opts boundary now tr ur tO fO trp pr =
        (CmdOutcome.validationError msg, []) := by
  intro fs cfg itemId file opts boundary now tr ur tO fO trp pr h
  rcases h with h | ⟨h1, h2⟩
  · exact ⟨_, uploadCmd_file_missing fs cfg itemId file opts boundary now tr ur
      tO fO trp pr h⟩
  · cases hex : (fs file).isNone with
    | true =>
        have hnone : fs file = none := by
          cases hf : fs file with
          | none => rfl
          | some v => rw [hf] at hex; simp at hex
        exact ⟨_, uploadCmd_file_missing fs cfg itemId file opts boundary now
          tr ur tO fO trp pr hnone⟩
    | false =>
        exact ⟨_, uploadCmd_bad_ext fs cfg itemId file opts boundary now tr ur
          tO fO trp pr hex h1 h2⟩

/-- Witness for C5 (amended): the spec's `upload("item1", "/nonexistent.zip")`
on an empty filesystem. -/
theorem C5_upload_validation_witness :
    ∃ msg, uploadCmd (fun _ => none) cfg0 "item1" "/nonexistent.zip" opts0
      (strBytes "b") 0 (.ok ⟨"T1", 3600⟩) (.error "unused")
      (fun _ => .error "unused") (fun _ => .error "unused")
      (.error "unused") (.error "unused") =
      (CmdOutcome.validationError msg, []) :=
  C5_upload_validation (fun _ => none) cfg0 "item1" "/nonexistent.zip" opts0
    (strBytes "b") 0 (.ok ⟨"T1", 3600⟩) (.error "unused")
    (fun _ => .error "unused") (fun _ => .error "unused")
    (.error "unused") (.error "unused") (Or.inl rfl)

/-! ## C6 — deploy percentage validation -/

/-- C6: for every percentage outside `[0, 100]` (or a `NaN` parse), the
deploy command fails with the `ValidationError` message and issues no network
request at all — `setPublishedDeployPercentage` and the transport are never
reached. -/
theorem C6_deploy_validation :
    ∀ (cfg : ChromeWebStoreConfig) (itemId : String) (percentage : Option Int)
      (dry : Bool) (now : Int) (tr : Except String TokenResponse)
      (resp : Except String Unit),
      (percentage = none ∨ ∃ p, percentage = some p ∧ (p < 0 ∨ p > 100)) →
      deployCmd cfg itemId percentage dry now tr resp =
        (.validationError "Deploy percentage must be a number between 0 and 100",
         []) :=
  fun cfg itemId percentage dry now tr resp h =>
    deployCmd_out_of_range cfg itemId percentage dry now tr resp h

/-- Witness for C6 at the spec's example `setDeployPercentage("item1", 150)`. -/
theorem C6_deploy_validation_witness :
    deployCmd cfg0 "item1" (some 150) false 0 (.ok ⟨"T1", 3600⟩)
      (.error "unused") =
      (.validationError "Deploy percentage must be a number between 0 and 100",
       []) :=
  C6_deploy_validation cfg0 "item1" (some 150) false 0 (.ok ⟨"T1", 3600⟩)
    (.error "unused") (Or.inr ⟨150, rfl, Or.inr (by decide)⟩)

/-! ## C7 — are all ValidationErrors raised before any network call? -/

/-- The max-wait-time validation in the upload command: it runs only after
`uploadPackage` has returned an `IN_PROGRESS` upload state, so when it
throws, the upload-phase network requests (a nonempty list ending in the
upload POST) have already been issued — though no polling request follows. -/
lemma uploadCmd_maxwait_after_upload
    (fs : String → Option (List UInt8)) (cfg : ChromeWebStoreConfig)
    (itemId file : String) (opts : UploadCmdOpts) (boundary : List UInt8)
    (now : Int) (tr : Except String TokenResponse)
    (ur : Except String UploadItemPackageResponse)
    (tO : ℕ → Except String TokenResponse)
    (fO : ℕ → Except String FetchItemStatusResponse)
    (trp : Except String TokenResponse)
    (pr : Except String PublishItemResponse)
    (uresp : UploadItemPackageResponse) (st1 : ClientState) (ureqs : List Req)
    (hupload : uploadPackage (mkClient cfg) now fs boundary itemId file tr ur =
      (.ok uresp, st1, ureqs))
    (hext : toLowerStr (extnameStr file) = ".zip" ∨
      toLowerStr (extnameStr file) = ".crx")
    (hdry : opts.dry = false)
    (hip : uresp.uploadState = some UploadState.IN_PROGRESS)
    (hmw : opts.maxWaitTime = none ∨
      ∃ w, opts.maxWaitTime = some w ∧ w * 1000 < 5000) :
    uploadCmd fs cfg itemId file opts boundary now tr ur tO fO trp pr =
      (.validationError "Max wait time must be at least 5 seconds", ureqs) ∧
    ureqs ≠ [] := by
  rcases hf : fs file with _ | bytes
  · rw [uploadPackage] at hupload
    simp [hf] at hupload
  have hne : ureqs ≠ [] := by
    rw [uploadPackage] at hupload
    rw [hf] at hupload
    rcases hga : getAccessToken (mkClient cfg) now tr with ⟨res, stg, rsg⟩
    cases res with
    | error e => rw [hga] at hupload; simp at hupload
    | ok tok =>
        rw [hga] at hupload
        simp at hupload
        obtain ⟨-, -, hr⟩ := hupload
        rw [← hr]
        simp
  refine ⟨?_, hne⟩
  rw [uploadCmd]
  rw [if_neg (by simp [hf])]
  rw [if_neg (not_not_intro hext), if_neg (by simp [hdry]), hupload]
  simp only [hip, if_pos]
  rcases hmw with hmw | ⟨w, hw, hlt⟩
  · simp [hmw]
  · simp [hw, hlt]

/-- Counterexample to C7 as stated: with a valid 1-byte `a.zip`, an upload
response reporting `IN_PROGRESS`, and `--max-wait-time 3` (3 s < the 5 s
minimum), the command throws the max-wait-time `ValidationError` only *after*
issuing two network requests (token refresh and upload POST) — so not every
`ValidationError` is raised before any network call. -/
theorem C7_counterexample :
    (uploadCmd fsOneZip cfg0 "item1" "a.zip"
      ⟨false, false, false, false, some 100, some 3⟩ (strBytes "b") 0
      (.ok ⟨"T1", 3600⟩) (.ok ⟨none, none, none, some UploadState.IN_PROGRESS⟩)
      (fun _ => .error "unused") (fun _ => .error "unused")
      (.error "unused") (.error "unused")).1 =
      CmdOutcome.validationError "Max wait time must be at least 5 seconds" ∧
    (uploadCmd fsOneZip cfg0 "item1" "a.zip"
      ⟨false, false, false, false, some 100, some 3⟩ (strBytes "b") 0
      (.ok ⟨"T1", 3600⟩) (.ok ⟨none, none, none, some UploadState.IN_PROGRESS⟩)
      (fun _ => .error "unused") (fun _ => .error "unused")
      (.error "unused") (.error "unused")).2.length = 2 := by
  exact ⟨by decide, by decide⟩

/-- C7 (amended): the missing-file and bad-extension `ValidationError`s of
the upload command and the out-of-range-percentage `ValidationError` of the
deploy command are raised with zero network calls; the max-wait-time
(interval too small) `ValidationError`, however, is raised only after the
upload-phase requests (a nonempty list) have been issued — it precedes any
*polling* network call but not the upload itself. -/
theorem C7_validation_network_order :
    (∀ (fs : String → Option (List UInt8)) (cfg : ChromeWebStoreConfig)
       (itemId file : String) (opts : UploadCmdOpts) (boundary : List UInt8)
       (now : Int) (tr : Except String TokenResponse)
       (ur : Except String UploadItemPackageResponse)
       (tO : ℕ → Except String TokenResponse)
       (fO : ℕ → Except String FetchItemStatusResponse)
       (trp : Except String TokenResponse)
       (pr : Except String PublishItemResponse),
       fs file = none →
       uploadCmd fs cfg itemId file opts boundary now tr ur tO fO trp pr =
         (.validationError ("File not found: " ++ file), [])) ∧
    (∀ (fs : String → Option (List UInt8)) (cfg : ChromeWebStoreConfig)
       (itemId file : String) (opts : UploadCmdOpts) (boundary : List UInt8)
       (now : Int) (tr : Except String TokenResponse)
       (ur : Except String UploadItemPackageResponse)
       (tO : ℕ → Except String TokenResponse)
       (fO : ℕ → Except String FetchItemStatusResponse)
       (trp : Except String TokenResponse)
       (pr : Except String PublishItemResponse),
       (fs file).isNone = false →
       toLowerStr (extnameStr file) ≠ ".zip" →
       toLowerStr (extnameStr file) ≠ ".crx" →
       uploadCmd fs cfg itemId file opts boundary now tr ur tO fO trp pr =
         (.validationError ("Unsupported file type: " ++
           toLowerStr (extnameStr file) ++
           ". Only .zip and .crx files are supported."), [])) ∧
    (∀ (cfg : ChromeWebStoreConfig) (itemId : String)
       (percentage : Option Int) (dry : Bool) (now : Int)
       (tr : Except String TokenResponse) (resp : Except String Unit),
       (percentage = none ∨ ∃ p, percentage = some p ∧ (p < 0 ∨ p > 100)) →
       deployCmd cfg itemId percentage dry now tr resp =
         (.validationError
           "Deploy percentage must be a number between 0 and 100", [])) ∧
    (∀ (fs : String → Option (List UInt8)) (cfg : ChromeWebStoreConfig)
       (itemId file : String) (opts : UploadCmdOpts) (boundary : List UInt8)
       (now : Int) (tr : Except String TokenResponse)
       (ur : Except String UploadItemPackageResponse)
       (tO : ℕ → Except String TokenResponse)
       (fO : ℕ → Except String FetchItemStatusResponse)
       (trp : Except String TokenResponse)
       (pr : Except String PublishItemResponse)
       (uresp : UploadItemPackageResponse) (st1 : ClientState)
       (ureqs : List Req),
       uploadPackage (mkClient cfg) now fs boundary itemId file tr ur =
         (.ok uresp, st1, ureqs) →
       (toLowerStr (extnameStr file) = ".zip" ∨
        toLowerStr (extnameStr file) = ".crx") →
       opts.dry = false →
       uresp.uploadState = some UploadState.IN_PROGRESS →
       (opts.maxWaitTime = none ∨
        ∃ w, opts.maxWaitTime = some w ∧ w * 1000 < 5000) →
       uploadCmd fs cfg itemId file opts boundary now tr ur tO fO trp pr =
         (.validationError "Max wait time must be at least 5 seconds", ureqs) ∧
       ureqs ≠ []) := by
  refine ⟨?_, ?_, ?_, ?_⟩
  · intro fs cfg itemId file opts boundary now tr ur tO fO trp pr h
    exact uploadCmd_file_missing fs cfg itemId file opts boundary now tr ur
      tO fO trp pr h
  · intro fs cfg itemId file opts boundary now tr ur tO fO trp pr hex h1 h2
    exact uploadCmd_bad_ext fs cfg itemId file opts boundary now tr ur
      tO fO trp pr hex h1 h2
  · intro cfg itemId percentage dry now tr resp h
    exact deployCmd_out_of_range cfg itemId percentage dry now tr resp h
  · intro fs cfg itemId file opts boundary now tr ur tO fO trp pr uresp st1
      ureqs hupload hext hdry hip hmw
    exact uploadCmd_maxwait_after_upload fs cfg itemId file opts boundary now
      tr ur tO fO trp pr uresp st1 ureqs hupload hext hdry hip hmw

/-- Witness for C7 (amended): each of the four parts at concrete inputs. -/
theorem C7_validation_network_order_witness :
    (uploadCmd (fun _ => none) cfg0 "item1" "missing.zip" opts0 (strBytes "b")
      0 (.error "unused") (.error "unused") (fun _ => .error "unused")
      (fun _ => .error "unused") (.error "unused") (.error "unused") =
      (.validationError "File not found: missing.zip", [])) ∧
    (uploadCmd (fun _ => some [1]) cfg0 "item1" "a.txt" opts0 (strBytes "b")
      0 (.error "unused") (.error "unused") (fun _ => .error "unused")
      (fun _ => .error "unused") (.error "unused") (.error "unused") =
      (.validationError
        "Unsupported file type: .txt. Only .zip and .crx files are supported.",
       [])) ∧
    (deployCmd cfg0 "item1" (some 150) false 0 (.error "unused")
      (.error "unused") =
      (.validationError "Deploy percentage must be a number between 0 and 100",
       [])) ∧
    (uploadCmd fsOneZip cfg0 "item1" "a.zip"
      ⟨false, false, false, false, some 100, some 3⟩ (strBytes "b") 0
      (.ok ⟨"T1", 3600⟩) (.ok ⟨none, none, none, some UploadState.IN_PROGRESS⟩)
      (fun _ => .error "unused") (fun _ => .error "unused")
      (.error "unused") (.error "unused") =
      (.validationError "Max wait time must be at least 5 seconds",
       (uploadPackage (mkClient cfg0) 0 fsOneZip (strBytes "b") "item1" "a.zip"
         (.ok ⟨"T1", 3600⟩)
         (.ok ⟨none, none, none, some UploadState.IN_PROGRESS⟩)).2.2)) := by
  refine ⟨?_, ?_, ?_, ?_⟩
  · exact C7_validation_network_order.1 (fun _ => none) cfg0 "item1"
      "missing.zip" opts0 (strBytes "b") 0 (.error "unused") (.error "unused")
      (fun _ => .error "unused") (fun _ => .error "unused") (.error "unused")
      (.error "unused") rfl
  · exact C7_validation_network_order.2.1 (fun _ => some [1]) cfg0 "item1"
      "a.txt" opts0 (strBytes "b") 0 (.error "unused") (.error "unused")
      (fun _ => .error "unused") (fun _ => .error "unused") (.error "unused")
      (.error "unused") (by decide) (by decide) (by decide)
  · exact C7_validation_network_order.2.2.1 cfg0 "item1" (some 150) false 0
      (.error "unused") (.error "unused")
      (Or.inr ⟨150, rfl, Or.inr (by decide)⟩)
  · exact (C7_validation_network_order.2.2.2 fsOneZip cfg0 "item1" "a.zip"
      ⟨false, false, false, false, some 100, some 3⟩ (strBytes "b") 0
      (.ok ⟨"T1", 3600⟩) (.ok ⟨none, none, none, some UploadState.IN_PROGRESS⟩)
      (fun _ => .error "unused") (fun _ => .error "unused") (.error "unused")
      (.error "unused") ⟨none, none, none, some UploadState.IN_PROGRESS⟩
      (uploadPackage (mkClient cfg0) 0 fsOneZip (strBytes "b") "item1" "a.zip"
        (.ok ⟨"T1", 3600⟩)
        (.ok ⟨none, none, none, some UploadState.IN_PROGRESS⟩)).2.1
      (uploadPackage (mkClient cfg0) 0 fsOneZip (strBytes "b") "item1" "a.zip"
        (.ok ⟨"T1", 3600⟩)
        (.ok ⟨none, none, none, some UploadState.IN_PROGRESS⟩)).2.2
      rfl (Or.inl (by decide)) rfl rfl
      (Or.inr ⟨3, rfl, by decide⟩)).1

/-! ## Frame predicates and lemmas for C8/C9 -/

/-- The state after an operation relates to the state before it: `config` and
`baseUrl` are untouched, and the token pair is either exactly the old one or
the wholesale result of the refresh resolved by `tr` at time `now`. -/
def tokenFrameOnly (st st' : ClientState) (now : Int)
    (tr : Except String TokenResponse) : Prop :=
  st'.config = st.config ∧ st'.baseUrl = st.baseUrl ∧
  ((st'.accessToken = st.accessToken ∧ st'.tokenExpiry = st.tokenExpiry) ∨
   ∃ r, tr = .ok r ∧ st'.accessToken = some r.access_token ∧
     st'.tokenExpiry = some (now + r.expires_in * 1000))

/-- Multi-step variant for the poller: the token pair is either unchanged or
the wholesale result of some iteration's refresh. -/
def pollFrame (st st' : ClientState)
    (tokenO : ℕ → Except String TokenResponse) : Prop :=
  st'.config = st.config ∧ st'.baseUrl = st.baseUrl ∧
  ((st'.accessToken = st.accessToken ∧ st'.tokenExpiry = st.tokenExpiry) ∨
   ∃ n t r, tokenO n = .ok r ∧ st'.accessToken = some r.access_token ∧
     st'.tokenExpiry = some (t + r.expires_in * 1000))

lemma tokenFrameOnly_of_getAccessToken (st : ClientState) (now : Int)
    (tr : Except String TokenResponse) :
    tokenFrameOnly st (getAccessToken st now tr).2.1 now tr :=
  getAccessToken_frame st now tr

lemma pollFrame_refl (st : ClientState)
    (tokenO : ℕ → Except String TokenResponse) : pollFrame st st tokenO :=
  ⟨rfl, rfl, Or.inl ⟨rfl, rfl⟩⟩

lemma pollFrame_trans {st st1 st2 : ClientState}
    {tokenO : ℕ → Except String TokenResponse}
    (h1 : pollFrame st st1 tokenO) (h2 : pollFrame st1 st2 tokenO) :
    pollFrame st st2 tokenO := by
  obtain ⟨hc1, hb1, hp1⟩ := h1
  obtain ⟨hc2, hb2, hp2⟩ := h2
  refine ⟨hc2.trans hc1, hb2.trans hb1, ?_⟩
  rcases hp2 with ⟨ha2, he2⟩ | ⟨n, t, r, hr, ha2, he2⟩
  · rcases hp1 with ⟨ha1, he1⟩ | ⟨n, t, r, hr, ha1, he1⟩
    · exact Or.inl ⟨ha2.trans ha1, he2.trans he1⟩
    · exact Or.inr ⟨n, t, r, hr, ha2.trans ha1, he2.trans he1⟩
  · exact Or.inr ⟨n, t, r, hr, ha2, he2⟩

lemma pollFrame_of_getAccessToken (st : ClientState) (now : Int)
    (tokenO : ℕ → Except String TokenResponse) (n : ℕ) :
    pollFrame st (getAccessToken st now (tokenO n)).2.1 tokenO := by
  obtain ⟨hc, hb, hp⟩ := getAccessToken_frame st now (tokenO n)
  refine ⟨hc, hb, ?_⟩
  rcases hp with h | ⟨r, hr, ha, he⟩
  · exact Or.inl h
  · exact Or.inr ⟨n, now, r, hr, ha, he⟩

lemma makeRequest_state {α : Type} (st : ClientState) (now : Int)
    (tr : Except String TokenResponse) (m p : String)
    (resp : Except String α) :
    (makeRequest st now tr m p resp).2.1 = (getAccessToken st now tr).2.1 := by
  rcases h : getAccessToken st now tr with ⟨res, st1, rs⟩
  cases res <;> simp [makeRequest, h]

lemma fetchItemStatus_state (st : ClientState) (now : Int)
    (tr : Except String TokenResponse) (itemId : String)
    (resp : Except String FetchItemStatusResponse) :
    (fetchItemStatus st now tr itemId resp).2.1 =
      (getAccessToken st now tr).2.1 :=
  makeRequest_state st now tr "GET" _ resp

lemma uploadPackage_state (st : ClientState) (now : Int)
    (fs : String → Option (List UInt8)) (boundary : List UInt8)
    (itemId filePath : String) (tr : Except String TokenResponse)
    (ur : Except String UploadItemPackageResponse) :
    (uploadPackage st now fs boundary itemId filePath tr ur).2.1 = st ∨
    (uploadPackage st now fs boundary itemId filePath tr ur).2.1 =
      (getAccessToken st now tr).2.1 := by
  rcases hf : fs filePath with _ | bytes
  · exact Or.inl (by simp [uploadPackage, hf])
  · rcases hga : getAccessToken st now tr with ⟨res, st1, rs⟩
    cases res <;> exact Or.inr (by simp [uploadPackage, hf, hga])

/-! ## C8 — does a failed upload/publish leave client state unchanged? -/

/-- Counterexample to C8 as stated: starting from a fresh client (no cached
token), an upload whose token refresh succeeds but whose upload POST fails
with `HTTP 500` leaves the freshly-cached access token behind: the failed
operation *did* mutate the client's cached token and expiry. -/
theorem C8_counterexample :
    (uploadPackage (mkClient cfg0) 0 fsOneZip (strBytes "b") "item1" "a.zip"
      (.ok ⟨"T1", 3600⟩) (.error "HTTP 500: boom")).1 =
      .error "HTTP 500: boom" ∧
    (uploadPackage (mkClient cfg0) 0 fsOneZip (strBytes "b") "item1" "a.zip"
      (.ok ⟨"T1", 3600⟩) (.error "HTTP 500: boom")).2.1.accessToken =
      some "T1" ∧
    (mkClient cfg0).accessToken = none := by
  exact ⟨by decide, by decide, rfl⟩

/-- C8 (amended): a failed `uploadPackage` or `publishItem` mutates no client
state except possibly the token cache: `config` and `baseUrl` are unchanged
and the token/expiry pair is either untouched or wholesale-replaced by a
token refresh that succeeded before the failure; in particular, when the
cached token was still valid at call time the state is entirely unchanged. -/
theorem C8_error_no_partial_state :
    (∀ (st : ClientState) (now : Int) (fs : String → Option (List UInt8))
       (boundary : List UInt8) (itemId filePath : String)
       (tr : Except String TokenResponse)
       (ur : Except String UploadItemPackageResponse) (e : String),
       (uploadPackage st now fs boundary itemId filePath tr ur).1 = .error e →
       tokenFrameOnly st
         (uploadPackage st now fs boundary itemId filePath tr ur).2.1 now tr ∧
       (cachedValid st now = true →
         (uploadPackage st now fs boundary itemId filePath tr ur).2.1 = st)) ∧
    (∀ (st : ClientState) (now : Int) (tr : Except String TokenResponse)
       (itemId : String) (request : PublishItemRequest)
       (resp : Except String PublishItemResponse) (e : String),
       (publishItem st now tr itemId request resp).1 = .error e →
       tokenFrameOnly st (publishItem st now tr itemId request resp).2.1
         now tr ∧
       (cachedValid st now = true →
         (publishItem st now tr itemId request resp).2.1 = st)) := by
  constructor
  · intro st now fs boundary itemId filePath tr ur e herr
    rcases uploadPackage_state st now fs boundary itemId filePath tr ur with
      h | h
    · rw [h]; exact ⟨⟨rfl, rfl, Or.inl ⟨rfl, rfl⟩⟩, fun _ => rfl⟩
    · rw [h]
      refine ⟨tokenFrameOnly_of_getAccessToken st now tr, fun hv => ?_⟩
      rw [getAccessToken_cached hv]
  · intro st now tr itemId request resp e herr
    rw [publishItem, makeRequest_state]
    refine ⟨tokenFrameOnly_of_getAccessToken st now tr, fun hv => ?_⟩
    rw [getAccessToken_cached hv]

/-- Witness for C8 (amended): the failing upload from the counterexample
satisfies the frame property (the token cache was wholesale-refreshed, all
other fields unchanged). -/
theorem C8_error_no_partial_state_witness :
    tokenFrameOnly (mkClient cfg0)
      (uploadPackage (mkClient cfg0) 0 fsOneZip (strBytes "b") "item1" "a.zip"
        (.ok ⟨"T1", 3600⟩) (.error "HTTP 500: boom")).2.1 0
      (.ok ⟨"T1", 3600⟩) ∧
    (cachedValid (mkClient cfg0) 0 = true →
      (uploadPackage (mkClient cfg0) 0 fsOneZip (strBytes "b") "item1" "a.zip"
        (.ok ⟨"T1", 3600⟩) (.error "HTTP 500: boom")).2.1 = mkClient cfg0) :=
  C8_error_no_partial_state.1 (mkClient cfg0) 0 fsOneZip (strBytes "b")
    "item1" "a.zip" (.ok ⟨"T1", 3600⟩) (.error "HTTP 500: boom")
    "HTTP 500: boom" (by decide)

/-! ## C9 — the token cache is the only mutable state -/

/-- C9: across every operation — upload, publish, fetch-status, cancel,
set-deploy-percentage, and any poller run — `config` and `baseUrl` are never
modified, and the cached token pair changes only by wholesale replacement
(token and expiry set together from one successful refresh response), never
partially. -/
theorem C9_only_token_cache_mutable :
    (∀ (st : ClientState) (now : Int) (fs : String → Option (List UInt8))
       (boundary : List UInt8) (itemId filePath : String)
       (tr : Except String TokenResponse)
       (ur : Except String UploadItemPackageResponse),
       tokenFrameOnly st
         (uploadPackage st now fs boundary itemId filePath tr ur).2.1 now tr) ∧
    (∀ (st : ClientState) (now : Int) (tr : Except String TokenResponse)
       (itemId : String) (request : PublishItemRequest)
       (resp : Except String PublishItemResponse),
       tokenFrameOnly st (publishItem st now tr itemId request resp).2.1
         now tr) ∧
    (∀ (st : ClientState) (now : Int) (tr : Except String TokenResponse)
       (itemId : String) (resp : Except String FetchItemStatusResponse),
       tokenFrameOnly st (fetchItemStatus st now tr itemId resp).2.1 now tr) ∧
    (∀ (st : ClientState) (now : Int) (tr : Except String TokenResponse)
       (itemId : String) (resp : Except String Unit),
       tokenFrameOnly st (cancelSubmission st now tr itemId resp).2.1
         now tr) ∧
    (∀ (st : ClientState) (now : Int) (tr : Except String TokenResponse)
       (itemId : String) (request : SetPublishedDeployPercentageRequest)
       (resp : Except String Unit),
       tokenFrameOnly st
         (setPublishedDeployPercentage st now tr itemId request resp).2.1
           now tr) ∧
    (∀ (tokenO : ℕ → Except String TokenResponse)
       (fetchO : ℕ → Except String FetchItemStatusResponse)
       (itemId : String) (maxWaitTime start : Int) (st : ClientState)
       (n elapsed : ℕ) (acc : List Req),
       pollFrame st
         (waitLoop tokenO fetchO itemId maxWaitTime start st n elapsed
           acc).state tokenO) := by
  refine ⟨?_, ?_, ?_, ?_, ?_, ?_⟩
  · intro st now fs boundary itemId filePath tr ur
    rcases uploadPackage_state st now fs boundary itemId filePath tr ur with
      h | h
    · rw [h]; exact ⟨rfl, rfl, Or.inl ⟨rfl, rfl⟩⟩
    · rw [h]; exact tokenFrameOnly_of_getAccessToken st now tr
  · intro st now tr itemId request resp
    rw [publishItem, makeRequest_state]
    exact tokenFrameOnly_of_getAccessToken st now tr
  · intro st now tr itemId resp
    rw [fetchItemStatus, makeRequest_state]
    exact tokenFrameOnly_of_getAccessToken st now tr
  · intro st now tr itemId resp
    rw [cancelSubmission, makeRequest_state]
    exact tokenFrameOnly_of_getAccessToken st now tr
  · intro st now tr itemId request resp
    rw [setPublishedDeployPercentage, makeRequest_state]
    exact tokenFrameOnly_of_getAccessToken st now tr
  · intro tokenO fetchO itemId maxWaitTime start st n elapsed acc
    induction st, n, elapsed, acc using waitLoop.induct tokenO fetchO itemId
      maxWaitTime start with
    | case1 st n elapsed acc hlt e st1 reqs hfetch =>
        have hst1 : st1 = (getAccessToken st (start + elapsed)
            (tokenO n)).2.1 := by
          have h2 := congrArg (fun t => t.2.1) hfetch
          simpa [fetchItemStatus_state] using h2.symm
        have hw : waitLoop tokenO fetchO itemId maxWaitTime start st n elapsed
            acc = ⟨.threw e, st1, n + 1, elapsed, acc ++ reqs⟩ := by
          rw [waitLoop, dif_pos hlt, hfetch]
        rw [hw, hst1]
        exact pollFrame_of_getAccessToken st (start + elapsed) tokenO n
    | case2 st n elapsed acc hlt status st1 reqs hfetch hstate =>
        have hst1 : st1 = (getAccessToken st (start + elapsed)
            (tokenO n)).2.1 := by
          have h2 := congrArg (fun t => t.2.1) hfetch
          simpa [fetchItemStatus_state] using h2.symm
        have hw : waitLoop tokenO fetchO itemId maxWaitTime start st n elapsed
            acc = ⟨.finished UploadState.SUCCEEDED, st1, n + 1, elapsed,
              acc ++ reqs⟩ := by
          rw [waitLoop, dif_pos hlt, hfetch]; simp [hstate]
        rw [hw, hst1]
        exact pollFrame_of_getAccessToken st (start + elapsed) tokenO n
    | case3 st n elapsed acc hlt status st1 reqs hfetch hstate =>
        have hst1 : st1 = (getAccessToken st (start + elapsed)
            (tokenO n)).2.1 := by
          have h2 := congrArg (fun t => t.2.1) hfetch
          simpa [fetchItemStatus_state] using h2.symm
        have hw : waitLoop tokenO fetchO itemId maxWaitTime start st n elapsed
            acc = ⟨.finished UploadState.FAILED, st1, n + 1, elapsed,
              acc ++ reqs⟩ := by
          rw [waitLoop, dif_pos hlt, hfetch]; simp [hstate]
        rw [hw, hst1]
        exact pollFrame_of_getAccessToken st (start + elapsed) tokenO n
    | case4 st n elapsed acc hlt status st1 reqs hfetch hstate ih =>
        have hst1 : st1 = (getAccessToken st (start + elapsed)
            (tokenO n)).2.1 := by
          have h2 := congrArg (fun t => t.2.1) hfetch
          simpa [fetchItemStatus_state] using h2.symm
        have hw : waitLoop tokenO fetchO itemId maxWaitTime start st n elapsed
            acc = waitLoop tokenO fetchO itemId maxWaitTime start st1 (n + 1)
              (elapsed + POLL_INTERVAL_MS) (acc ++ reqs) := by
          rw [waitLoop, dif_pos hlt, hfetch]; simp [hstate]
        rw [hw]
        refine pollFrame_trans ?_ ih
        rw [hst1]
        exact pollFrame_of_getAccessToken st (start + elapsed) tokenO n
    | case5 st n elapsed acc hlt status st1 reqs hfetch s hs1 hs2 hs3 hstate =>
        have hst1 : st1 = (getAccessToken st (start + elapsed)
            (tokenO n)).2.1 := by
          have h2 := congrArg (fun t => t.2.1) hfetch
          simpa [fetchItemStatus_state] using h2.symm
        have hw : waitLoop tokenO fetchO itemId maxWaitTime start st n elapsed
            acc = ⟨.finished s, st1, n + 1, elapsed, acc ++ reqs⟩ := by
          rw [waitLoop, dif_pos hlt, hfetch]
          cases s <;> simp_all
        rw [hw, hst1]
        exact pollFrame_of_getAccessToken st (start + elapsed) tokenO n
    | case6 st n elapsed acc hlt status st1 reqs hfetch hstate ih =>
        have hst1 : st1 = (getAccessToken st (start + elapsed)
            (tokenO n)).2.1 := by
          have h2 := congrArg (fun t => t.2.1) hfetch
          simpa [fetchItemStatus_state] using h2.symm
        have hw : waitLoop tokenO fetchO itemId maxWaitTime start st n elapsed
            acc = waitLoop tokenO fetchO itemId maxWaitTime start st1 (n + 1)
              (elapsed + POLL_INTERVAL_MS) (acc ++ reqs) := by
          rw [waitLoop, dif_pos hlt, hfetch]; simp [hstate]
        rw [hw]
        refine pollFrame_trans ?_ ih
        rw [hst1]
        exact pollFrame_of_getAccessToken st (start + elapsed) tokenO n
    | case7 st n elapsed acc hlt =>
        rw [waitLoop_timeout_exit tokenO fetchO itemId maxWaitTime start st n
          elapsed acc hlt]
        exact pollFrame_refl st tokenO

end CWS
